import Mathlib

/-!
Verification of the speculative command execution and rollback engine of the
parakeet voice-control system: the generation registry and snapshot ledger
(src/generationTracker.ts), the rollback executor, the continuation detector,
and the boundary-event handling of the utterance state machine (main.ts).

State held in JavaScript module-level mutable variables is modelled by
explicit state passing; the Home Assistant backend is modelled by oracle
parameters (fetch results, per-snapshot restoration success) and by an
explicit list of emitted backend effects; nondeterministic identifier /
timestamp generation is modelled by parameters.
-/

namespace Parakeet

/-- Restorable attributes of a Home Assistant entity, as read from the
backend and as consulted by restoreEntityState.  A field is `none` when the
attribute is absent from the entity state object. -/
structure Attributes where
  brightness : Option Nat := none
  rgb_color : Option (Nat × Nat × Nat) := none
  color_temp_kelvin : Option Nat := none
  hvac_mode : Option String := none
  temperature : Option Int := none
  volume_level : Option Nat := none
deriving DecidableEq

/-- EntityStateSnapshot from generationTracker.ts. -/
structure EntityStateSnapshot where
  entity_id : String
  state : String
  attributes : Attributes
  timestamp : Nat
deriving DecidableEq

/-- ActiveGeneration from generationTracker.ts.  The AbortController is an
abstract handle, modelled by a number. -/
structure ActiveGeneration where
  id : String
  utteranceId : String
  text : String
  startTime : Nat
  entitySnapshots : List EntityStateSnapshot
  toolCallsExecuted : List String
  abortController : Nat
deriving DecidableEq

/-- The module-level `activeGeneration` variable: at most one active
Generation. -/
abbrev Registry := Option ActiveGeneration

/-- Payload of a callHomeAssistantService invocation; only the fields the
rollback executor ever sends.  Absent fields are `none`. -/
structure ServiceData where
  entity_id : String
  brightness : Option Nat := none
  rgb_color : Option (Nat × Nat × Nat) := none
  color_temp_kelvin : Option Nat := none
  hvac_mode : Option String := none
  temperature : Option Int := none
  volume_level : Option Nat := none
deriving DecidableEq

/-- Observable side effects towards the backend / cancellation handle. -/
inductive Effect where
  | callService (domain : String) (svc : String) (data : ServiceData)
  | abortSignal (handle : Nat)
deriving DecidableEq

/-- JavaScript truthiness of a possibly-absent number (`if (attributes.x)`):
absent and 0 are falsy. -/
def natTruthy : Option Nat → Bool
  | none => false
  | some n => n != 0

/-- JavaScript truthiness of a possibly-absent integer. -/
def intTruthy : Option Int → Bool
  | none => false
  | some n => n != 0

/-- JavaScript truthiness of a possibly-absent string: absent and the empty
string are falsy. -/
def strTruthy : Option String → Bool
  | none => false
  | some s => s != ""

/-- The text before the first dot of an entity id, as computed by
entity_id.split at the dot, element 0: the domain of the entity. -/
def domainOf (entityId : String) : String :=
  String.mk (entityId.data.takeWhile (fun c => c != '.'))

/-- The serviceData object built by restoreEntityState for
`light.turn_on`: brightness, then rgb_color else color_temp_kelvin, each
guarded by JavaScript truthiness of the recorded attribute. -/
def lightTurnOnData (entityId : String) (attrs : Attributes) : ServiceData :=
  let d0 : ServiceData := { entity_id := entityId }
  let d1 := if natTruthy attrs.brightness then { d0 with brightness := attrs.brightness } else d0
  if attrs.rgb_color.isSome then { d1 with rgb_color := attrs.rgb_color }
  else if natTruthy attrs.color_temp_kelvin then { d1 with color_temp_kelvin := attrs.color_temp_kelvin }
  else d1

/-- restoreEntityState from generationTracker.ts, as the ordered list of
backend service calls it issues when no call throws.  Unknown domains only
log and issue no call. -/
def restoreEntityCalls (s : EntityStateSnapshot) : List Effect :=
  let domain := domainOf s.entity_id
  if domain = "light" then
    if s.state = "off" then
      [Effect.callService "light" "turn_off" { entity_id := s.entity_id }]
    else
      [Effect.callService "light" "turn_on" (lightTurnOnData s.entity_id s.attributes)]
  else if domain = "climate" then
    (if strTruthy s.attributes.hvac_mode then
      [Effect.callService "climate" "set_hvac_mode"
        { entity_id := s.entity_id, hvac_mode := s.attributes.hvac_mode }]
     else []) ++
    (if intTruthy s.attributes.temperature then
      [Effect.callService "climate" "set_temperature"
        { entity_id := s.entity_id, temperature := s.attributes.temperature }]
     else [])
  else if domain = "media_player" then
    if s.state = "off" then
      [Effect.callService "media_player" "turn_off" { entity_id := s.entity_id }]
    else
      Effect.callService "media_player" "turn_on" { entity_id := s.entity_id } ::
      (if natTruthy s.attributes.volume_level then
        [Effect.callService "media_player" "volume_set"
          { entity_id := s.entity_id, volume_level := s.attributes.volume_level }]
       else [])
  else []

/-- startGeneration from generationTracker.ts.  The generated id and the
clock reading are parameters; the previous registry content is discarded
unconditionally.  Returns the generation id, the new registry content, and
the (empty) list of backend effects. -/
def startGeneration (utteranceId text : String) (abortController : Nat)
    (genId : String) (now : Nat) (_reg : Registry) :
    String × Registry × List Effect :=
  (genId,
   some { id := genId, utteranceId := utteranceId, text := text, startTime := now,
          entitySnapshots := [], toolCallsExecuted := [], abortController := abortController },
   [])

/-- captureEntityState from generationTracker.ts.  `fetched` is the backend
response for the entity: `none` when the fetch (or its JSON decoding)
throws or the response is not ok — the catch block then leaves the ledger
unchanged.  A snapshot is pushed only when no snapshot for this entity id
is already recorded (findIndex === -1). -/
def captureEntityState (entityId : String) (fetched : Option (String × Attributes))
    (now : Nat) (reg : Registry) : Registry :=
  match reg with
  | none => none
  | some g =>
    match fetched with
    | none => some g
    | some (st, attrs) =>
      if g.entitySnapshots.any (fun s => s.entity_id == entityId) then some g
      else some { g with entitySnapshots :=
        g.entitySnapshots ++ [{ entity_id := entityId, state := st, attributes := attrs, timestamp := now }] }

/-- recordToolExecution from generationTracker.ts. -/
def recordToolExecution (toolName : String) (reg : Registry) : Registry :=
  match reg with
  | none => none
  | some g => some { g with toolCallsExecuted := g.toolCallsExecuted ++ [toolName] }

/-- The rollback loop of cancelAndRollback: walks the snapshot ledger in
order, attempting restoreEntityState for each snapshot; `rok` tells whether
the restoration of a snapshot completes without throwing.  Returns
(rollbackSuccesses, rollbackFailures, emitted restore calls); a throwing
restoration contributes no modelled effect. -/
def rollbackLoop (rok : EntityStateSnapshot → Bool) :
    List EntityStateSnapshot → Nat × Nat × List Effect
  | [] => (0, 0, [])
  | s :: rest =>
    let r := rollbackLoop rok rest
    if rok s then (r.1 + 1, r.2.1, restoreEntityCalls s ++ r.2.2)
    else (r.1, r.2.1 + 1, r.2.2)

/-- cancelAndRollback from generationTracker.ts: with no active generation
it returns false; otherwise it aborts the generation's controller, restores
each snapshot independently, clears the registry and returns
`rollbackFailures === 0`. -/
def cancelAndRollback (rok : EntityStateSnapshot → Bool) (reg : Registry) :
    Bool × Registry × List Effect :=
  match reg with
  | none => (false, none, [])
  | some g =>
    let r := rollbackLoop rok g.entitySnapshots
    (r.2.1 == 0, none, Effect.abortSignal g.abortController :: r.2.2)

/-- completeGeneration from generationTracker.ts. -/
def completeGeneration : Registry → Registry
  | none => none
  | some _ => none

/-- Lower-casing a string character by character (`toLowerCase`, ASCII). -/
def lowerStr (s : String) : String :=
  String.mk (s.data.map Char.toLower)

/-- needle `isPrefixOf` hay on character lists. -/
def listIsPref : List Char → List Char → Bool
  | [], _ => true
  | _ :: _, [] => false
  | a :: as, b :: bs => a == b && listIsPref as bs

/-- JavaScript String.prototype.includes on character lists. -/
def listContainsSub (hay needle : List Char) : Bool :=
  match hay with
  | [] => needle.isEmpty
  | c :: t => listIsPref needle (c :: t) || listContainsSub t needle

/-- JavaScript hay.includes(needle). -/
def strIncludes (hay needle : String) : Bool :=
  listContainsSub hay.data needle.data

/-- detectUtteranceContinuation from generationTracker.ts. -/
def detectUtteranceContinuation (utteranceId newText : String) (reg : Registry) : Bool :=
  match reg with
  | none => false
  | some g =>
    if g.utteranceId == utteranceId then
      let isLonger : Bool := decide (newText.length > g.text.length + 10)
      let isDifferent : Bool := ! strIncludes (lowerStr newText) (lowerStr g.text)
      isLonger || isDifferent
    else false

/-- Outcome of the streamed model call inside analyse: it either yields a
result text, rejects with an AbortError (cancellation), or rejects with any
other error. -/
inductive ModelOutcome where
  | success (result : String)
  | aborted
  | failure
deriving DecidableEq

/-- What analyse does from its caller's point of view: resolve with a
result string, or rethrow the model error. -/
inductive AnalyseResult where
  | ok (result : String)
  | error
deriving DecidableEq

/-- analyse from ai.ts (the generation-tracking variant): starts a new
generation for the call (with the manual fallback id when no utterance id
is supplied or it is falsy), runs the model call, and on success calls
completeGeneration before returning; an AbortError resolves with the empty
string and any other error is rethrown — in both of those paths the
registry is left as the model call left it. -/
def analyse (text : String) (utteranceId : Option String) (genId : String)
    (abortController now : Nat) (outcome : ModelOutcome) (reg : Registry) :
    AnalyseResult × Registry :=
  let uid :=
    match utteranceId with
    | some u => if u == "" then "manual_" ++ toString now else u
    | none => "manual_" ++ toString now
  let reg1 := (startGeneration uid text abortController genId now reg).2.1
  match outcome with
  | ModelOutcome.success result => (AnalyseResult.ok result, completeGeneration reg1)
  | ModelOutcome.aborted => (AnalyseResult.ok "", reg1)
  | ModelOutcome.failure => (AnalyseResult.error, reg1)

/-- JavaScript Set membership over the insertion-ordered list model of
processedUtteranceIds. -/
def listHas : List String → String → Bool
  | [], _ => false
  | b :: t, a => b == a || listHas t a

/-- Trimming whitespace from both ends of a character list (trim()). -/
def trimChars (l : List Char) : List Char :=
  ((l.dropWhile Char.isWhitespace).reverse.dropWhile Char.isWhitespace).reverse

/-- JavaScript text.trim(). -/
def trimStr (s : String) : String :=
  String.mk (trimChars s.data)

/-- Index of the first occurrence of needle in hay (indexOf), `none` when
absent. -/
def firstIdx (hay needle : List Char) : Option Nat :=
  match hay with
  | [] => if needle.isEmpty then some 0 else none
  | c :: t =>
    if listIsPref needle (c :: t) then some 0
    else
      match firstIdx t needle with
      | some n => some (n + 1)
      | none => none

/-- JavaScript hay.replace(needle, ""): removes the first occurrence of
needle, or returns hay unchanged when absent. -/
def removeFirst (hay needle : String) : String :=
  match firstIdx hay.data needle.data with
  | some i => String.mk (hay.data.take i ++ hay.data.drop (i + needle.data.length))
  | none => hay

/-- stripWakeWord from main.ts: locate the wake word case-insensitively,
keep the trimmed text before and after it, join the non-empty parts with a
space; when the wake word is absent return the trimmed text. -/
def stripWakeWord (w text : String) : String :=
  let lowerText := lowerStr text
  let lowerWakeWord := lowerStr w
  match firstIdx lowerText.data lowerWakeWord.data with
  | some i =>
    let beforeWake := trimStr (String.mk (text.data.take i))
    let afterWake := trimStr (String.mk (text.data.drop (i + w.data.length)))
    let parts := [beforeWake, afterWake].filter (fun p => p.length != 0)
    trimStr (String.intercalate " " parts)
  | none => trimStr text

/-- The per-channel mutable state of the transcription handler in main.ts:
awake flag, the two timers (modelled as armed flags), the last partial
text, the processedUtteranceIds set (insertion-ordered), and the generation
registry it drives. -/
structure SessionState where
  isAwake : Bool
  wakeTimerArmed : Bool
  interimTimerArmed : Bool
  lastInterimText : Option String
  processed : List String
  reg : Registry
deriving DecidableEq

/-- A boundary (isBoundary) transcription event. -/
structure BoundaryEvent where
  id : String
  text : String
deriving DecidableEq

/-- Observable actions of the handler towards the model layer. -/
inductive Action where
  | modelCall (commandText : String) (utteranceId : String)
deriving DecidableEq

/-- Result of handling one boundary event: the state after the handler
returns or throws, the model calls it made, and whether it rethrew a model
error. -/
structure StepResult where
  state : SessionState
  actions : List Action
  threw : Bool
deriving DecidableEq

/-- Clearing the pending partial-promotion timer, done first for every
boundary event. -/
def clearPendingTimer (s : SessionState) : SessionState :=
  { s with interimTimerArmed := false }

/-- The continuation check of the boundary handler: when the new text is
detected as a continuation, cancelAndRollback runs (its success is only
logged) and the handler proceeds on the cleared registry. -/
def continuationPhase (rok : EntityStateSnapshot → Bool) (ev : BoundaryEvent)
    (s : SessionState) : SessionState :=
  if detectUtteranceContinuation ev.id ev.text s.reg then
    { s with reg := (cancelAndRollback rok s.reg).2.1 }
  else s

/-- The wake-word / command dispatch of the boundary handler, after the
utterance id has been added to the seen set.  Mirrors main.ts lines
102-183: the wake-word branch wakes up and (when text beyond the wake word
remains) runs the command without resetting the awake flag; the
awake branch runs the command and then falls asleep and trims the seen set
to its newest 50 entries once it exceeds 100; the asleep branch only
logs. -/
def commandPhase (w : String) (outcome : ModelOutcome) (genId : String)
    (hctl now : Nat) (ev : BoundaryEvent) (s : SessionState) : StepResult :=
  let lowerText := lowerStr ev.text
  if strIncludes lowerText (lowerStr w) then
    let s1 := { s with isAwake := true, wakeTimerArmed := true }
    let withoutWakeWord := trimStr (removeFirst lowerText (lowerStr w))
    if withoutWakeWord == "" then
      { state := { s1 with lastInterimText := none }, actions := [], threw := false }
    else
      let commandText := stripWakeWord w ev.text
      if commandText == "" then
        { state := s1, actions := [], threw := false }
      else
        let r := analyse commandText (some ev.id) genId hctl now outcome s1.reg
        match r.1 with
        | AnalyseResult.error =>
          { state := { s1 with reg := r.2 }, actions := [Action.modelCall commandText ev.id],
            threw := true }
        | AnalyseResult.ok _ =>
          { state := { s1 with reg := r.2 }, actions := [Action.modelCall commandText ev.id],
            threw := false }
  else if s.isAwake then
    let commandText := stripWakeWord w ev.text
    let r := analyse commandText (some ev.id) genId hctl now outcome s.reg
    match r.1 with
    | AnalyseResult.error =>
      { state := { s with reg := r.2 }, actions := [Action.modelCall commandText ev.id],
        threw := true }
    | AnalyseResult.ok _ =>
      let s2 := { s with reg := r.2, isAwake := false, wakeTimerArmed := false }
      let s3 :=
        if s2.processed.length > 100 then
          { s2 with processed := s2.processed.drop (s2.processed.length - 50) }
        else s2
      { state := s3, actions := [Action.modelCall commandText ev.id], threw := false }
  else
    { state := s, actions := [], threw := false }

/-- The boundary branch of the transcription handler in main.ts: clear the
pending partial timer, drop already-processed utterance ids, run the
continuation check, mark the id as seen, then dispatch on wake word /
awake state. -/
def handleBoundary (w : String) (outcome : ModelOutcome) (genId : String)
    (hctl now : Nat) (rok : EntityStateSnapshot → Bool) (ev : BoundaryEvent)
    (s : SessionState) : StepResult :=
  let s1 := clearPendingTimer s
  if listHas s1.processed ev.id then
    { state := s1, actions := [], threw := false }
  else
    let s2 := continuationPhase rok ev s1
    let s3 := { s2 with processed := s2.processed ++ [ev.id] }
    commandPhase w outcome genId hctl now ev s3

/-- Observer: the snapshots recorded for one entity in the active
Generation's ledger. -/
def snapshotsFor (e : String) (reg : Registry) : List EntityStateSnapshot :=
  match reg with
  | none => []
  | some g => g.entitySnapshots.filter (fun s => s.entity_id == e)

/-! ## Helper lemmas -/

theorem filter_nil_of_any_false {α : Type} (p : α → Bool) :
    ∀ l : List α, l.any p = false → l.filter p = [] := by
  intro l h
  induction l with
  | nil => rfl
  | cons a t ih =>
    simp only [List.any_cons, Bool.or_eq_false_iff] at h
    simp [List.filter_cons, h.1, ih h.2]

theorem rollbackLoop_failures_eq_zero (rok : EntityStateSnapshot → Bool) :
    ∀ l : List EntityStateSnapshot,
      (rollbackLoop rok l).2.1 = 0 ↔ ∀ s ∈ l, rok s = true := by
  intro l
  induction l with
  | nil => simp [rollbackLoop]
  | cons a t ih =>
    by_cases h : rok a = true
    · simp [rollbackLoop, h, ih]
    · simp only [Bool.not_eq_true] at h
      simp [rollbackLoop, h]

/-! ## Claim theorems: generation registry -/

/-- Claim C1: startGeneration creates a fresh Generation with empty
snapshot and tool-call lists, attaches it as the single active Generation
whatever was active before (the previous one is silently dropped, with no
rollback and no backend call emitted), and returns its id. -/
theorem startGeneration_replaces_active :
    ∀ (reg : Registry) (uid text : String) (hctl : Nat) (genId : String) (now : Nat),
      startGeneration uid text hctl genId now reg =
        (genId,
         some { id := genId, utteranceId := uid, text := text, startTime := now,
                entitySnapshots := [], toolCallsExecuted := [], abortController := hctl },
         []) := by
  intro reg uid text hctl genId now
  rfl

/-- Claim C3: cancelAndRollback always leaves the registry without an
active Generation, for every restoration oracle and every starting
registry content (including no active Generation at all). -/
theorem cancelAndRollback_clears_active :
    ∀ (rok : EntityStateSnapshot → Bool) (reg : Registry),
      (cancelAndRollback rok reg).2.1 = none := by
  intro rok reg
  cases reg <;> rfl

/-- Claim C2: cancelAndRollback returns true only if every snapshot in the
ledger was restored, and a failing restoration does not stop the others:
with three snapshots of which exactly the middle one fails, it returns
false and still emits the full restore calls of the two succeeding
snapshots. -/
theorem cancelAndRollback_fail_open :
    ∀ (rok : EntityStateSnapshot → Bool) (g : ActiveGeneration),
      ((cancelAndRollback rok (some g)).1 = true → ∀ s ∈ g.entitySnapshots, rok s = true) ∧
      (∀ s1 s2 s3, g.entitySnapshots = [s1, s2, s3] →
        rok s1 = true → rok s2 = false → rok s3 = true →
        (cancelAndRollback rok (some g)).1 = false ∧
        (cancelAndRollback rok (some g)).2.2 =
          Effect.abortSignal g.abortController ::
            (restoreEntityCalls s1 ++ restoreEntityCalls s3)) := by
  intro rok g
  constructor
  · intro h
    have h0 : (rollbackLoop rok g.entitySnapshots).2.1 = 0 := by
      simpa [cancelAndRollback] using h
    exact (rollbackLoop_failures_eq_zero rok g.entitySnapshots).mp h0
  · intro s1 s2 s3 hsnap h1 h2 h3
    constructor
    · simp [cancelAndRollback, hsnap, rollbackLoop, h1, h2, h3]
    · simp [cancelAndRollback, hsnap, rollbackLoop, h1, h2, h3]

/-- Witness for C2 at a concrete generation with three light snapshots of
which only light.b fails to restore. -/
theorem cancelAndRollback_fail_open_witness :
    (cancelAndRollback (fun s => s.entity_id != "light.b")
      (some { id := "g1", utteranceId := "u1", text := "turn the lights on", startTime := 0,
              entitySnapshots := [⟨"light.a", "off", {}, 0⟩, ⟨"light.b", "off", {}, 0⟩,
                                  ⟨"light.c", "off", {}, 0⟩],
              toolCallsExecuted := [], abortController := 7 })).1 = false ∧
    (cancelAndRollback (fun s => s.entity_id != "light.b")
      (some { id := "g1", utteranceId := "u1", text := "turn the lights on", startTime := 0,
              entitySnapshots := [⟨"light.a", "off", {}, 0⟩, ⟨"light.b", "off", {}, 0⟩,
                                  ⟨"light.c", "off", {}, 0⟩],
              toolCallsExecuted := [], abortController := 7 })).2.2 =
      Effect.abortSignal 7 ::
        (restoreEntityCalls ⟨"light.a", "off", {}, 0⟩ ++
         restoreEntityCalls ⟨"light.c", "off", {}, 0⟩) :=
  (cancelAndRollback_fail_open (fun s => s.entity_id != "light.b")
    { id := "g1", utteranceId := "u1", text := "turn the lights on", startTime := 0,
      entitySnapshots := [⟨"light.a", "off", {}, 0⟩, ⟨"light.b", "off", {}, 0⟩,
                          ⟨"light.c", "off", {}, 0⟩],
      toolCallsExecuted := [], abortController := 7 }).2
    _ _ _ rfl (by decide) (by decide) (by decide)

/-- Claim C4: detectUtteranceContinuation is true exactly when there is an
active Generation whose utterance id matches and the new text is longer
than the recorded text by more than the slack of 10 characters or the
recorded text is no longer a case-insensitive substring of the new text;
in particular it is false with no active Generation or differing ids. -/
theorem detectUtteranceContinuation_spec :
    ∀ (reg : Registry) (utteranceId newText : String),
      detectUtteranceContinuation utteranceId newText reg = true ↔
        ∃ g, reg = some g ∧ g.utteranceId = utteranceId ∧
          (newText.length > g.text.length + 10 ∨
           strIncludes (lowerStr newText) (lowerStr g.text) = false) := by
  intro reg uid nt
  cases reg with
  | none => simp [detectUtteranceContinuation]
  | some g =>
    by_cases h : g.utteranceId = uid
    · simp [detectUtteranceContinuation, h]
    · simp [detectUtteranceContinuation, h]

/-- Claim C5: within one Generation a snapshot is recorded at most once per
entity: a call for an already-recorded entity leaves the registry
unchanged, and after a first successful capture the ledger holds exactly
the snapshot taken by that first call, which a second call (with any fetch
outcome) leaves untouched. -/
theorem captureEntityState_idempotent :
    ∀ (g : ActiveGeneration) (e st : String) (a : Attributes) (t1 t2 t : Nat)
      (f2 f : Option (String × Attributes)),
      ((g.entitySnapshots.any fun s => s.entity_id == e) = true →
        captureEntityState e f t (some g) = some g) ∧
      ((g.entitySnapshots.any fun s => s.entity_id == e) = false →
        snapshotsFor e (captureEntityState e (some (st, a)) t1 (some g)) =
          [{ entity_id := e, state := st, attributes := a, timestamp := t1 }] ∧
        captureEntityState e f2 t2 (captureEntityState e (some (st, a)) t1 (some g)) =
          captureEntityState e (some (st, a)) t1 (some g)) := by
  intro g e st a t1 t2 t f2 f
  constructor
  · intro h
    match f with
    | none => rfl
    | some (st', a') => simp [captureEntityState, h]
  · intro h
    have hcap : captureEntityState e (some (st, a)) t1 (some g) =
        some { g with entitySnapshots := g.entitySnapshots ++
          [{ entity_id := e, state := st, attributes := a, timestamp := t1 }] } := by
      simp [captureEntityState, h]
    constructor
    · rw [hcap]
      simp [snapshotsFor, List.filter_append, filter_nil_of_any_false _ _ h]
    · rw [hcap]
      match f2 with
      | none => rfl
      | some (st2, a2) =>
        simp [captureEntityState, List.any_append, h]

/-- Witness for C5 at a concrete empty-ledger generation and entity
light.a. -/
theorem captureEntityState_idempotent_witness :
    ((([] : List EntityStateSnapshot).any fun s => s.entity_id == "light.a") = false) ∧
    (snapshotsFor "light.a"
        (captureEntityState "light.a" (some ("on", {})) 3
          (some { id := "g1", utteranceId := "u1", text := "turn on", startTime := 0,
                  entitySnapshots := [], toolCallsExecuted := [], abortController := 0 })) =
      [{ entity_id := "light.a", state := "on", attributes := {}, timestamp := 3 }] ∧
     captureEntityState "light.a" (some ("off", {})) 9
        (captureEntityState "light.a" (some ("on", {})) 3
          (some { id := "g1", utteranceId := "u1", text := "turn on", startTime := 0,
                  entitySnapshots := [], toolCallsExecuted := [], abortController := 0 })) =
      captureEntityState "light.a" (some ("on", {})) 3
        (some { id := "g1", utteranceId := "u1", text := "turn on", startTime := 0,
                entitySnapshots := [], toolCallsExecuted := [], abortController := 0 })) :=
  ⟨by decide,
   (captureEntityState_idempotent
      { id := "g1", utteranceId := "u1", text := "turn on", startTime := 0,
        entitySnapshots := [], toolCallsExecuted := [], abortController := 0 }
      "light.a" "on" {} 3 9 0 (some ("off", {})) none).2 (by decide)⟩

/-- Claim C7 (divergence witness): when the model call inside analyse
rejects with a non-abort error, the error is rethrown to the caller but the
Generation started for the call is never detached: it remains the active
Generation after analyse returns, with no finally-equivalent complete or
cancelAndRollback on that path. -/
theorem analyse_failure_leaves_stale_generation :
    analyse "turn on the lights" (some "u1") "g1" 0 0 ModelOutcome.failure none =
      (AnalyseResult.error,
       some { id := "g1", utteranceId := "u1", text := "turn on the lights", startTime := 0,
              entitySnapshots := [], toolCallsExecuted := [], abortController := 0 }) := by
  decide

/-! ## Helper lemmas about the boundary handler -/

theorem listHas_append_self (l : List String) (a : String) :
    listHas (l ++ [a]) a = true := by
  induction l with
  | nil => simp [listHas]
  | cons b t ih => simp [listHas, ih]

theorem listHas_drop_append (a : String) :
    ∀ (l : List String) (n : Nat), n ≤ l.length →
      listHas ((l ++ [a]).drop n) a = true := by
  intro l
  induction l with
  | nil =>
    intro n hn
    have hz : n = 0 := Nat.le_zero.mp hn
    subst hz
    simp [listHas]
  | cons b t ih =>
    intro n hn
    cases n with
    | zero => simpa using listHas_append_self (b :: t) a
    | succ m =>
      have hm : m ≤ t.length := Nat.le_of_succ_le_succ hn
      simpa using ih m hm

theorem continuationPhase_processed (rok : EntityStateSnapshot → Bool)
    (ev : BoundaryEvent) (s : SessionState) :
    (continuationPhase rok ev s).processed = s.processed := by
  unfold continuationPhase
  split <;> rfl

theorem continuationPhase_isAwake (rok : EntityStateSnapshot → Bool)
    (ev : BoundaryEvent) (s : SessionState) :
    (continuationPhase rok ev s).isAwake = s.isAwake := by
  unfold continuationPhase
  split <;> rfl

theorem commandPhase_processed (w : String) (outcome : ModelOutcome) (genId : String)
    (hctl now : Nat) (ev : BoundaryEvent) (s : SessionState) :
    (commandPhase w outcome genId hctl now ev s).state.processed = s.processed ∨
    (commandPhase w outcome genId hctl now ev s).state.processed =
      s.processed.drop (s.processed.length - 50) := by
  unfold commandPhase
  dsimp only
  split
  · split
    · exact Or.inl rfl
    · split
      · exact Or.inl rfl
      · split <;> exact Or.inl rfl
  · split
    · split
      · exact Or.inl rfl
      · split
        · exact Or.inr rfl
        · exact Or.inl rfl
    · exact Or.inl rfl

/-! ## Claim theorems: utterance state machine -/

/-- Claim C10: a boundary event with an unseen utterance id marks that id
as seen in every branch of the handler (asleep, wake word only, wake word
with command, awake command), and a boundary event with an already-seen id
only clears the pending partial timer: it performs no model call and
changes nothing else. -/
theorem boundary_marks_seen_and_dedups :
    ∀ (w : String) (outcome : ModelOutcome) (genId : String) (hctl now : Nat)
      (rok : EntityStateSnapshot → Bool) (ev : BoundaryEvent) (s : SessionState),
      (listHas s.processed ev.id = false →
        listHas (handleBoundary w outcome genId hctl now rok ev s).state.processed ev.id = true) ∧
      (listHas s.processed ev.id = true →
        (handleBoundary w outcome genId hctl now rok ev s).state = clearPendingTimer s ∧
        (handleBoundary w outcome genId hctl now rok ev s).actions = []) := by
  intro w outcome genId hctl now rok ev s
  constructor
  · intro h
    unfold handleBoundary clearPendingTimer
    dsimp only
    simp only [h, Bool.false_eq_true, if_false]
    rcases commandPhase_processed w outcome genId hctl now ev
        { continuationPhase rok ev { s with interimTimerArmed := false } with
          processed := (continuationPhase rok ev { s with interimTimerArmed := false }).processed
            ++ [ev.id] } with hp | hp <;> rw [hp] <;> dsimp only
    · exact listHas_append_self _ _
    · simp only [List.length_append, List.length_singleton]
      exact listHas_drop_append ev.id _ _ (by omega)
  · intro h
    unfold handleBoundary clearPendingTimer
    dsimp only
    simp [h]

/-- Witness for C10: a fresh id is marked seen while asleep, and a second
boundary event reusing it after the machine woke up is ignored. -/
theorem boundary_marks_seen_and_dedups_witness :
    (listHas [] "u1" = false ∧
      listHas (handleBoundary "polly" (ModelOutcome.success "ok") "g1" 0 0 (fun _ => true)
        { id := "u1", text := "hello there" }
        { isAwake := false, wakeTimerArmed := false, interimTimerArmed := false,
          lastInterimText := none, processed := [], reg := none }).state.processed "u1" = true) ∧
    (listHas ["u1"] "u1" = true ∧
      (handleBoundary "polly" (ModelOutcome.success "ok") "g1" 0 0 (fun _ => true)
        { id := "u1", text := "polly turn on the lights" }
        { isAwake := true, wakeTimerArmed := true, interimTimerArmed := true,
          lastInterimText := none, processed := ["u1"], reg := none }).state =
        clearPendingTimer
          { isAwake := true, wakeTimerArmed := true, interimTimerArmed := true,
            lastInterimText := none, processed := ["u1"], reg := none } ∧
      (handleBoundary "polly" (ModelOutcome.success "ok") "g1" 0 0 (fun _ => true)
        { id := "u1", text := "polly turn on the lights" }
        { isAwake := true, wakeTimerArmed := true, interimTimerArmed := true,
          lastInterimText := none, processed := ["u1"], reg := none }).actions = []) :=
  ⟨⟨by decide,
    (boundary_marks_seen_and_dedups "polly" (ModelOutcome.success "ok") "g1" 0 0 (fun _ => true)
      { id := "u1", text := "hello there" }
      { isAwake := false, wakeTimerArmed := false, interimTimerArmed := false,
        lastInterimText := none, processed := [], reg := none }).1 (by decide)⟩,
   ⟨by decide,
    (boundary_marks_seen_and_dedups "polly" (ModelOutcome.success "ok") "g1" 0 0 (fun _ => true)
      { id := "u1", text := "polly turn on the lights" }
      { isAwake := true, wakeTimerArmed := true, interimTimerArmed := true,
        lastInterimText := none, processed := ["u1"], reg := none }).2 (by decide)⟩⟩

theorem analyse_success (text uid genId : String) (hctl now : Nat) (res : String)
    (reg : Registry) :
    analyse text (some uid) genId hctl now (ModelOutcome.success res) reg =
      (AnalyseResult.ok res, none) := rfl

/-- Claim C8 counterexample: a command carried in the same utterance as the
wake word is handled as a command (the model call runs on the stripped
text) but the machine stays AWAKE afterwards, so that single wake still
accepts further commands. -/
theorem wake_word_command_keeps_machine_awake :
    (handleBoundary "polly" (ModelOutcome.success "done") "g1" 0 0 (fun _ => true)
        { id := "u1", text := "polly turn on the lights" }
        { isAwake := false, wakeTimerArmed := false, interimTimerArmed := false,
          lastInterimText := none, processed := [], reg := none }).actions =
      [Action.modelCall "turn on the lights" "u1"] ∧
    (handleBoundary "polly" (ModelOutcome.success "done") "g1" 0 0 (fun _ => true)
        { id := "u1", text := "polly turn on the lights" }
        { isAwake := false, wakeTimerArmed := false, interimTimerArmed := false,
          lastInterimText := none, processed := [], reg := none }).state.isAwake = true := by
  decide

/-- Claim C8 as amended: after a command handled as a boundary event while
AWAKE whose text does not contain the wake word, the machine resets the
channel to ASLEEP once the model call completes; a command carried in the
same utterance as the wake word instead leaves the channel AWAKE. -/
theorem command_resets_to_asleep_only_without_wake_word :
    ∀ (w res genId : String) (hctl now : Nat) (rok : EntityStateSnapshot → Bool)
      (ev : BoundaryEvent) (s : SessionState),
      listHas s.processed ev.id = false →
      (strIncludes (lowerStr ev.text) (lowerStr w) = false → s.isAwake = true →
        (handleBoundary w (ModelOutcome.success res) genId hctl now rok ev s).state.isAwake
            = false ∧
        (handleBoundary w (ModelOutcome.success res) genId hctl now rok ev s).actions =
          [Action.modelCall (stripWakeWord w ev.text) ev.id]) ∧
      (strIncludes (lowerStr ev.text) (lowerStr w) = true →
        (handleBoundary w (ModelOutcome.success res) genId hctl now rok ev s).state.isAwake
            = true) := by
  intro w res genId hctl now rok ev s h0
  unfold handleBoundary clearPendingTimer
  dsimp only
  simp only [h0, Bool.false_eq_true, if_false]
  constructor
  · intro hw hA
    unfold commandPhase
    dsimp only
    simp only [hw, Bool.false_eq_true, if_false, continuationPhase_isAwake, hA, if_true,
      analyse_success]
    refine ⟨?_, trivial⟩
    split <;> rfl
  · intro hw
    unfold commandPhase
    dsimp only
    simp only [hw, if_true]
    split
    · rfl
    · split
      · rfl
      · simp only [analyse_success]

/-- Witness for the amended C8 at a concrete awake session and a command
without the wake word. -/
theorem command_resets_to_asleep_witness :
    (listHas [] "u1" = false ∧
     strIncludes (lowerStr "turn on the lights") (lowerStr "polly") = false) ∧
    ((handleBoundary "polly" (ModelOutcome.success "done") "g1" 0 0 (fun _ => true)
        { id := "u1", text := "turn on the lights" }
        { isAwake := true, wakeTimerArmed := true, interimTimerArmed := false,
          lastInterimText := none, processed := [], reg := none }).state.isAwake = false ∧
     (handleBoundary "polly" (ModelOutcome.success "done") "g1" 0 0 (fun _ => true)
        { id := "u1", text := "turn on the lights" }
        { isAwake := true, wakeTimerArmed := true, interimTimerArmed := false,
          lastInterimText := none, processed := [], reg := none }).actions =
       [Action.modelCall (stripWakeWord "polly" "turn on the lights") "u1"]) :=
  ⟨⟨by decide, by decide⟩,
   ((command_resets_to_asleep_only_without_wake_word "polly" "done" "g1" 0 0 (fun _ => true)
      { id := "u1", text := "turn on the lights" }
      { isAwake := true, wakeTimerArmed := true, interimTimerArmed := false,
        lastInterimText := none, processed := [], reg := none } (by decide)).1
    (by decide) rfl)⟩

/-- Claim C9 counterexample: with 101 seen utterance ids and the machine
asleep, one more boundary event with a fresh id grows the seen set to 102
entries and evicts nothing — the oldest entry is still present — although
the configured maximum of 100 is exceeded. -/
theorem seen_set_grows_past_cap_without_eviction :
    ((handleBoundary "polly" (ModelOutcome.success "") "g1" 0 0 (fun _ => true)
        { id := "fresh", text := "hello there" }
        { isAwake := false, wakeTimerArmed := false, interimTimerArmed := false,
          lastInterimText := none,
          processed := (List.range 101).map (fun n => String.mk (List.replicate n 'a')),
          reg := none }).state.processed.length = 102) ∧
    (listHas (handleBoundary "polly" (ModelOutcome.success "") "g1" 0 0 (fun _ => true)
        { id := "fresh", text := "hello there" }
        { isAwake := false, wakeTimerArmed := false, interimTimerArmed := false,
          lastInterimText := none,
          processed := (List.range 101).map (fun n => String.mk (List.replicate n 'a')),
          reg := none }).state.processed "" = true) := by
  decide

/-- Claim C9 as amended: the seen set is trimmed to its newest 50 entries
only in the AWAKE no-wake-word command branch, and there only when its
size exceeds 100 after inserting the new id; a boundary event handled
while ASLEEP (without the wake word) inserts its id with no eviction, so
no fixed bound holds across arbitrary events. -/
theorem seen_trim_only_after_awake_command :
    ∀ (w res genId : String) (hctl now : Nat) (rok : EntityStateSnapshot → Bool)
      (ev : BoundaryEvent) (s : SessionState),
      listHas s.processed ev.id = false →
      (strIncludes (lowerStr ev.text) (lowerStr w) = false → s.isAwake = true →
        (handleBoundary w (ModelOutcome.success res) genId hctl now rok ev s).state.processed =
          if (s.processed ++ [ev.id]).length > 100 then
            (s.processed ++ [ev.id]).drop ((s.processed ++ [ev.id]).length - 50)
          else s.processed ++ [ev.id]) ∧
      (strIncludes (lowerStr ev.text) (lowerStr w) = false → s.isAwake = false →
        (handleBoundary w (ModelOutcome.success res) genId hctl now rok ev s).state.processed =
          s.processed ++ [ev.id]) ∧
      (strIncludes (lowerStr ev.text) (lowerStr w) = true →
        (handleBoundary w (ModelOutcome.success res) genId hctl now rok ev s).state.processed =
          s.processed ++ [ev.id]) := by
  intro w res genId hctl now rok ev s h0
  unfold handleBoundary clearPendingTimer
  dsimp only
  simp only [h0, Bool.false_eq_true, if_false]
  refine ⟨?_, ?_, ?_⟩
  · intro hw hA
    unfold commandPhase
    dsimp only
    simp only [hw, Bool.false_eq_true, if_false, continuationPhase_isAwake, hA, if_true,
      analyse_success]
    simp only [continuationPhase_processed]
    split <;> rfl
  · intro hw hA
    unfold commandPhase
    dsimp only
    simp only [hw, Bool.false_eq_true, if_false, continuationPhase_isAwake, hA,
      continuationPhase_processed]
  · intro hw
    unfold commandPhase
    dsimp only
    simp only [hw, if_true, continuationPhase_processed]
    split
    · rfl
    · split
      · rfl
      · split <;> rfl

/-- Witness for the amended C9: while asleep a fresh id is appended with
no trimming, and a wake-word-carrying event also appends its id with no
trimming. -/
theorem seen_trim_only_after_awake_command_witness :
    (listHas ["a"] "u1" = false ∧
     strIncludes (lowerStr "hello there") (lowerStr "polly") = false ∧
     (handleBoundary "polly" (ModelOutcome.success "ok") "g1" 0 0 (fun _ => true)
        { id := "u1", text := "hello there" }
        { isAwake := false, wakeTimerArmed := false, interimTimerArmed := false,
          lastInterimText := none, processed := ["a"], reg := none }).state.processed =
      ["a"] ++ ["u1"]) ∧
    (listHas ["a"] "u2" = false ∧
     strIncludes (lowerStr "polly turn on the lights") (lowerStr "polly") = true ∧
     (handleBoundary "polly" (ModelOutcome.success "ok") "g1" 0 0 (fun _ => true)
        { id := "u2", text := "polly turn on the lights" }
        { isAwake := false, wakeTimerArmed := false, interimTimerArmed := false,
          lastInterimText := none, processed := ["a"], reg := none }).state.processed =
      ["a"] ++ ["u2"]) :=
  ⟨⟨by decide, by decide,
    (seen_trim_only_after_awake_command "polly" "ok" "g1" 0 0 (fun _ => true)
      { id := "u1", text := "hello there" }
      { isAwake := false, wakeTimerArmed := false, interimTimerArmed := false,
        lastInterimText := none, processed := ["a"], reg := none }
      (by decide)).2.1 (by decide) rfl⟩,
   ⟨by decide, by decide,
    (seen_trim_only_after_awake_command "polly" "ok" "g1" 0 0 (fun _ => true)
      { id := "u2", text := "polly turn on the lights" }
      { isAwake := false, wakeTimerArmed := false, interimTimerArmed := false,
        lastInterimText := none, processed := ["a"], reg := none }
      (by decide)).2.2 (by decide)⟩⟩

/-- Claim C6 counterexample: a light snapshot in state "on" with
brightness recorded as 0 — the attribute is present in the snapshot — is
restored by a turn_on call that does not resend brightness, because the
source guards each attribute with JavaScript truthiness, not presence. -/
theorem restore_present_attribute_not_resent :
    ({ entity_id := "light.lamp", state := "on",
       attributes := { brightness := some 0 }, timestamp := 0 } :
        EntityStateSnapshot).attributes.brightness.isSome = true ∧
    restoreEntityCalls
        { entity_id := "light.lamp", state := "on",
          attributes := { brightness := some 0 }, timestamp := 0 } =
      [Effect.callService "light" "turn_on"
        { entity_id := "light.lamp", brightness := none, rgb_color := none,
          color_temp_kelvin := none, hvac_mode := none, temperature := none,
          volume_level := none }] := by
  decide

/-- Claim C6 as amended: restoring a non-"off" entity invokes the domain's
activate operation resending exactly those restorable attributes that are
present in the snapshot with a truthy value (non-zero number); for lights,
rgb_color is preferred over color_temp_kelvin; absent or falsy attributes
are not resent. -/
theorem restore_resends_truthy_attributes :
    ∀ (s : EntityStateSnapshot),
      (domainOf s.entity_id = "light" → s.state ≠ "off" →
        restoreEntityCalls s =
          [Effect.callService "light" "turn_on"
            { entity_id := s.entity_id,
              brightness :=
                if natTruthy s.attributes.brightness then s.attributes.brightness else none,
              rgb_color :=
                if s.attributes.rgb_color.isSome then s.attributes.rgb_color else none,
              color_temp_kelvin :=
                if s.attributes.rgb_color.isSome then none
                else if natTruthy s.attributes.color_temp_kelvin then
                  s.attributes.color_temp_kelvin
                else none }]) ∧
      (domainOf s.entity_id = "media_player" → s.state ≠ "off" →
        restoreEntityCalls s =
          Effect.callService "media_player" "turn_on" { entity_id := s.entity_id } ::
          (if natTruthy s.attributes.volume_level then
            [Effect.callService "media_player" "volume_set"
              { entity_id := s.entity_id, volume_level := s.attributes.volume_level }]
           else [])) := by
  intro s
  constructor
  · intro hd hs
    unfold restoreEntityCalls
    dsimp only
    rw [hd]
    simp only [if_pos rfl, if_neg hs]
    unfold lightTurnOnData
    dsimp only
    split_ifs <;> rfl
  · intro hd hs
    unfold restoreEntityCalls
    dsimp only
    rw [hd]
    simp only [if_neg hs]
    rw [if_neg (by decide : ¬("media_player" : String) = "light"),
        if_neg (by decide : ¬("media_player" : String) = "climate")]
    simp only [if_true]

/-- Witness for the amended C6 at a concrete light snapshot carrying a
truthy brightness and color temperature. -/
theorem restore_resends_truthy_attributes_witness :
    (domainOf "light.desk" = "light" ∧ ("on" : String) ≠ "off") ∧
    restoreEntityCalls
        { entity_id := "light.desk", state := "on",
          attributes := { brightness := some 128, color_temp_kelvin := some 3000 },
          timestamp := 5 } =
      [Effect.callService "light" "turn_on"
        { entity_id := "light.desk",
          brightness :=
            if natTruthy (some 128) then some 128 else none,
          rgb_color := if (none : Option (Nat × Nat × Nat)).isSome then none else none,
          color_temp_kelvin :=
            if (none : Option (Nat × Nat × Nat)).isSome then none
            else if natTruthy (some 3000) then some 3000
            else none }] :=
  ⟨⟨by decide, by decide⟩,
   (restore_resends_truthy_attributes
      { entity_id := "light.desk", state := "on",
        attributes := { brightness := some 128, color_temp_kelvin := some 3000 },
        timestamp := 5 }).1 (by decide) (by decide)⟩

end Parakeet
